import Mathlib

/-!
Shallow embedding of the Giftnama backend's checkout core (`src/main.py`,
`src/schemas.py`).

Modelling choices:
* Monetary values are Python floats in the source; they are embedded as exact
  rationals (`ℚ`).  Python's `round(x, 2)` is embedded as half-up rounding to
  two decimal places (`round2` below); §9 of the accompanying design notes
  leaves the rounding mode unspecified and asks the implementation to pick
  and document one.
* The Mongo store is a pure association list from canonical (lowercase,
  24-hex-character) ObjectId strings to product documents, plus a list of
  persisted order documents.  `bson.ObjectId(s)` raising `InvalidId` on a
  malformed string is embedded as the `objectIdValid` check; a failed parse
  performs no store lookup, mirroring the source where `ObjectId(...)`
  raises before `find_one` runs.
* The side effects of `checkout` on the store are captured as an explicit
  trace of store operations (`StoreOp`): product lookups and order inserts.
-/

namespace Giftnama

/-- Python's `round(x, 2)` on monetary values, embedded over `ℚ` as half-up
rounding to two decimal places (the design notes leave the tie-breaking mode
open and ask for one documented choice; half-up is used uniformly here). -/
def round2 (q : ℚ) : ℚ := ((⌊q * 100 + 1/2⌋ : ℤ) : ℚ) / 100

/-- A rational is a whole number of cents. -/
def IsCent (q : ℚ) : Prop := ∃ k : ℤ, q = (k : ℚ) / 100

/-- A hexadecimal character (either case), as accepted by `bson.ObjectId`. -/
def isHexChar (c : Char) : Bool := "0123456789abcdefABCDEF".data.contains c

/-- Validity of an ObjectId string: `bson.ObjectId` accepts exactly 24
hexadecimal characters. -/
def objectIdValid (s : String) : Bool :=
  s.data.length == 24 && s.data.all isHexChar

/-- Lower-case a hexadecimal character, as `bson.ObjectId` canonicalises the
hex string it is given. -/
def hexLowerChar (c : Char) : Char :=
  if c = 'A' then 'a' else if c = 'B' then 'b' else if c = 'C' then 'c'
  else if c = 'D' then 'd' else if c = 'E' then 'e' else if c = 'F' then 'f'
  else c

/-- Canonical form of an ObjectId string (`bson.ObjectId` compares parsed
byte values, i.e. case-insensitively on the hex form). -/
def canonOid (s : String) : String := String.mk (s.data.map hexLowerChar)

/-- Product document (the fields `checkout` and the ownership claims read:
`title`, `price`, `images` (urls), plus `in_stock`/`stock_qty` carried along
for the frame property). -/
structure Product where
  title : String
  price : ℚ
  images : List String
  in_stock : Bool
  stock_qty : Int
deriving Repr, DecidableEq

/-- Inbound cart item (`class CartItem(BaseModel)` in `main.py`): pydantic
only enforces the types `str` and `int`; there is no bound on `quantity`. -/
structure CartItem where
  product_id : String
  quantity : Int
deriving Repr, DecidableEq

/-- Inbound checkout payload (`class CheckoutRequest(BaseModel)`). -/
structure CheckoutRequest where
  items : List CartItem
  customer_name : String
  customer_email : String
  address_line1 : String
  address_city : String
  address_state : String
  address_postal_code : String
  address_country : String := "US"
deriving Repr, DecidableEq

/-- One entry of `items_out` in `checkout`. -/
structure RespItem where
  product_id : String
  title : String
  price : ℚ
  quantity : Int
  image : Option String
  line_total : ℚ
deriving Repr, DecidableEq

/-- The `customer` sub-document of the persisted order. -/
structure CustomerDoc where
  name : String
  email : String
  address_line1 : String
  city : String
  state : String
  postal_code : String
  country : String
deriving Repr, DecidableEq

/-- The order document persisted by `create_document("order", order_doc)`. -/
structure OrderDoc where
  items : List RespItem
  subtotal : ℚ
  shipping : ℚ
  tax : ℚ
  total : ℚ
  customer : CustomerDoc
  status : String
deriving Repr, DecidableEq

/-- The JSON body returned by `checkout`. -/
structure CheckoutResponse where
  items : List RespItem
  subtotal : ℚ
  shipping : ℚ
  tax : ℚ
  total : ℚ
  status : String
  message : String
deriving Repr, DecidableEq

/-- Embedding of `fastapi.HTTPException(status_code, detail)`. -/
structure HTTPException where
  status_code : Nat
  detail : String
deriving Repr, DecidableEq

def emptyCartExc : HTTPException := ⟨400, "Cart is empty"⟩

def invalidProductIdExc : HTTPException := ⟨400, "Invalid product id"⟩

def productNotFoundExc (pid : String) : HTTPException :=
  ⟨404, "Product " ++ pid ++ " not found"⟩

/-- A store operation performed by `checkout`: a `find_one` on the product
collection, or an insert into the order collection. -/
inductive StoreOp where
  | findProduct (pid : String)
  | insertOrder (doc : OrderDoc)
deriving Repr, DecidableEq

/-- The document store: products keyed by canonical ObjectId strings, plus
persisted orders. -/
structure Store where
  products : List (String × Product)
  orders : List OrderDoc
deriving Repr, DecidableEq

/-- Embedding of `db["product"].find_one` with the parsed id: lookup by the
(case-normalised) id. -/
def Store.find (st : Store) (pid : String) : Option Product :=
  (st.products.find? (fun pr => pr.1 == canonOid pid)).map Prod.snd

/-- Exceptions that can escape the body of the `try` block in `checkout`'s
resolution step: the `bson.errors.InvalidId` from `ObjectId(...)`, or the
`HTTPException` 404 raised when `find_one` returns nothing. -/
inductive ResolveErr where
  | invalidObjectId
  | httpExc (e : HTTPException)
deriving Repr, DecidableEq

/-- The body of the `try` block (lines 176–181 of `main.py`): parse the id,
look the product up, raise 404 naming the id when absent, otherwise return
`(price, title, first image url)`.  Second component: the store operations
performed. -/
def tryResolve (st : Store) (pid : String) :
    Except ResolveErr (ℚ × String × Option String) × List StoreOp :=
  if objectIdValid pid then
    match st.find pid with
    | none => (.error (.httpExc (productNotFoundExc pid)), [.findProduct pid])
    | some p => (.ok (p.price, p.title, p.images.head?), [.findProduct pid])
  else
    (.error .invalidObjectId, [])

/-- The whole `try`/`except` (lines 175–183): any exception escaping the body
— the 404 included — is replaced by `HTTPException(400, "Invalid product id")`. -/
def resolveItem (st : Store) (pid : String) :
    Except HTTPException (ℚ × String × Option String) × List StoreOp :=
  match tryResolve st pid with
  | (.ok v, ops) => (.ok v, ops)
  | (.error _, ops) => (.error invalidProductIdExc, ops)

/-- Image URL of the mocked fallback line item. -/
def mockImageUrl : String :=
  "https://images.unsplash.com/photo-1523275335684-37898b6baf30"

/-- The mocked fallback used for every line when no database is configured
(`db is None` branch, lines 169–173). -/
def mockResolved : ℚ × String × Option String :=
  (49, "Gift Item", some mockImageUrl)

/-- One loop iteration's product resolution (lines 169–183): the mocked
fallback when no database is configured, otherwise the guarded lookup. -/
def resolveStep (store : Option Store) (pid : String) :
    Except HTTPException (ℚ × String × Option String) × List StoreOp :=
  match store with
  | none => (.ok mockResolved, [])
  | some st => resolveItem st pid

/-- The per-item loop of `checkout` (lines 168–194): resolve each item,
accumulate the raw (unrounded) subtotal, and build `items_out` whose
`line_total` field is rounded to two decimals. -/
def processItems (store : Option Store) :
    List CartItem → Except HTTPException (List RespItem × ℚ) × List StoreOp
  | [] => (.ok ([], 0), [])
  | it :: rest =>
    match resolveStep store it.product_id with
    | (.error e, ops) => (.error e, ops)
    | (.ok (price, title, image), ops) =>
      let lt : ℚ := price * (it.quantity : ℚ)
      match processItems store rest with
      | (.error e, ops2) => (.error e, ops ++ ops2)
      | (.ok (ios, sub), ops2) =>
        (.ok ({ product_id := it.product_id, title := title, price := price,
                quantity := it.quantity, image := image,
                line_total := round2 lt } :: ios,
              lt + sub),
         ops ++ ops2)

/-- Endpoint `POST /api/checkout` (lines 159–229 of `main.py`): empty-cart check, the
resolution/pricing loop, shipping/tax/total, optional persistence, and the
response body.  Returns the HTTP outcome together with the trace of store
operations performed. -/
def checkout (store : Option Store) (payload : CheckoutRequest) :
    Except HTTPException CheckoutResponse × List StoreOp :=
  if payload.items.isEmpty then
    (.error emptyCartExc, [])
  else
    match processItems store payload.items with
    | (.error e, ops) => (.error e, ops)
    | (.ok (itemsOut, subtotal), ops) =>
      let shipping : ℚ := if subtotal ≥ 75 then 0 else 699/100
      let tax : ℚ := round2 (subtotal * (8/100))
      let total : ℚ := round2 (subtotal + shipping + tax)
      let orderOps : List StoreOp :=
        match store with
        | none => []
        | some _ =>
          [.insertOrder
            { items := itemsOut, subtotal := round2 subtotal,
              shipping := round2 shipping, tax := tax, total := total,
              customer :=
                { name := payload.customer_name,
                  email := payload.customer_email,
                  address_line1 := payload.address_line1,
                  city := payload.address_city,
                  state := payload.address_state,
                  postal_code := payload.address_postal_code,
                  country := payload.address_country },
              status := "processing" }]
      (.ok { items := itemsOut, subtotal := round2 subtotal,
             shipping := round2 shipping, tax := tax, total := total,
             status := "processing",
             message := "Order placed successfully" },
       ops ++ orderOps)

/-- Effect of one store operation on the store state: `find_one` reads,
`create_document("order", ...)` appends an order. -/
def applyOp (st : Store) : StoreOp → Store
  | .findProduct _ => st
  | .insertOrder doc => { st with orders := st.orders ++ [doc] }

/-- Effect of a trace of store operations. -/
def applyOps (st : Store) (ops : List StoreOp) : Store := ops.foldl applyOp st

/-- The raw (unrounded) accumulated subtotal of a cart, when resolution
succeeds. -/
def rawSubtotal (store : Option Store) (items : List CartItem) : Option ℚ :=
  match (processItems store items).1 with
  | .ok (_, s) => some s
  | .error _ => none

/-! Concrete fixtures used by witnesses and counterexamples. -/

/-- A two-unit single-line cart, priced against the unconfigured-store mock. -/
def pW1 : CheckoutRequest :=
  { items := [⟨"gift-1", 2⟩], customer_name := "Ada", customer_email := "a@x.io",
    address_line1 := "1 Main St", address_city := "Springfield",
    address_state := "IL", address_postal_code := "62701",
    address_country := "US" }

/-- Response of `checkout none pW1`: 2 × 49.00 = 98.00 ≥ 75 so shipping is 0,
tax is 7.84, total 105.84. -/
def respW1 : CheckoutResponse :=
  { items := [⟨"gift-1", "Gift Item", 49, 2, some mockImageUrl, 98⟩],
    subtotal := 98, shipping := 0, tax := 196/25, total := 2646/25,
    status := "processing", message := "Order placed successfully" }

/-- A cart whose single item has quantity 0 (pydantic `CartItem` accepts it). -/
def pQty0 : CheckoutRequest :=
  { items := [⟨"giftcard", 0⟩], customer_name := "Bob", customer_email := "b@x.io",
    address_line1 := "2 Oak Ave", address_city := "Portland",
    address_state := "OR", address_postal_code := "97201",
    address_country := "US" }

/-- Response of `checkout none pQty0`: the zero-quantity line is priced
(line total 0.00), shipping 6.99, total 6.99. -/
def respQty0 : CheckoutResponse :=
  { items := [⟨"giftcard", "Gift Item", 49, 0, some mockImageUrl, 0⟩],
    subtotal := 0, shipping := 699/100, tax := 0, total := 699/100,
    status := "processing", message := "Order placed successfully" }

/-- An empty cart. -/
def pEmpty : CheckoutRequest :=
  { items := [], customer_name := "Eve", customer_email := "e@x.io",
    address_line1 := "3 Elm St", address_city := "Austin",
    address_state := "TX", address_postal_code := "73301",
    address_country := "US" }

/-- A store with no products at all. -/
def stEmpty : Store := { products := [], orders := [] }

/-- A well-formed ObjectId string that no product has. -/
def pidMissing : String := "0123456789abcdef01234567"

/-- A cart referencing `pidMissing`. -/
def pMissing : CheckoutRequest :=
  { items := [⟨pidMissing, 1⟩], customer_name := "Cat", customer_email := "c@x.io",
    address_line1 := "4 Pine Rd", address_city := "Denver",
    address_state := "CO", address_postal_code := "80201",
    address_country := "US" }

/-- ObjectId of the 37.496-priced product below. -/
def pidC2 : String := "aaaaaaaaaaaaaaaaaaaaaaaa"

/-- A product priced at 37.496 (a representable float price whose per-line
rounding crosses the free-shipping threshold when doubled). -/
def prodC2 : Product :=
  { title := "Bamboo Organizer", price := 4687/125, images := [],
    in_stock := true, stock_qty := 50 }

/-- A store holding only `prodC2`. -/
def stC2 : Store := { products := [(pidC2, prodC2)], orders := [] }

/-- A cart with two units of `prodC2` as two separate lines. -/
def pC2 : CheckoutRequest :=
  { items := [⟨pidC2, 1⟩, ⟨pidC2, 1⟩], customer_name := "Dan",
    customer_email := "d@x.io", address_line1 := "5 Birch Ln",
    address_city := "Boston", address_state := "MA",
    address_postal_code := "02101", address_country := "US" }

/-- Response of `checkout (some stC2) pC2`: each line total rounds to 37.50
(sum 75.00), but the accumulated raw subtotal is 74.992 < 75, so shipping is
6.99; tax = round2(5.99936) = 6.00, total 87.98, displayed subtotal 74.99. -/
def respC2 : CheckoutResponse :=
  { items := [⟨pidC2, "Bamboo Organizer", 4687/125, 1, none, 75/2⟩,
              ⟨pidC2, "Bamboo Organizer", 4687/125, 1, none, 75/2⟩],
    subtotal := 7499/100, shipping := 699/100, tax := 6, total := 4399/50,
    status := "processing", message := "Order placed successfully" }

/-! Rounding lemmas. -/

theorem round2_eq (q : ℚ) (k : ℤ) (r : ℚ) (h1 : (k : ℚ) ≤ q * 100 + 1/2)
    (h2 : q * 100 + 1/2 < k + 1) (h3 : (k : ℚ) / 100 = r) : round2 q = r := by
  unfold round2
  rw [Int.floor_eq_iff.mpr ⟨h1, h2⟩, h3]

theorem round2_isCent (q : ℚ) : IsCent (round2 q) :=
  ⟨⌊q * 100 + 1/2⌋, rfl⟩

theorem round2_add_cent (q : ℚ) (k : ℤ) :
    round2 (q + (k : ℚ) / 100) = round2 q + (k : ℚ) / 100 := by
  unfold round2
  have harg : (q + (k : ℚ) / 100) * 100 + 1/2 = q * 100 + 1/2 + (k : ℚ) := by
    ring
  rw [harg, Int.floor_add_int]
  push_cast
  ring

theorem round2_intCast_div (k : ℤ) : round2 ((k : ℚ) / 100) = (k : ℚ) / 100 := by
  have h0 : round2 (0 : ℚ) = 0 :=
    round2_eq 0 0 0 (by norm_num) (by norm_num) (by norm_num)
  have := round2_add_cent 0 k
  rwa [zero_add, h0, zero_add] at this

theorem IsCent.add {a b : ℚ} (ha : IsCent a) (hb : IsCent b) : IsCent (a + b) := by
  obtain ⟨k1, rfl⟩ := ha
  obtain ⟨k2, rfl⟩ := hb
  exact ⟨k1 + k2, by push_cast; ring⟩

theorem round2_of_cent (c : ℚ) (h : IsCent c) : round2 c = c := by
  obtain ⟨k, rfl⟩ := h
  exact round2_intCast_div k

theorem round2_add_of_cent (q c : ℚ) (h : IsCent c) :
    round2 (q + c) = round2 q + c := by
  obtain ⟨k, rfl⟩ := h
  exact round2_add_cent q k

/-- Rounding the grand total of a raw subtotal plus whole-cent charges agrees
with rounding the rounded subtotal plus the same charges. -/
theorem total_rounding (sub s t : ℚ) (hs : IsCent s) (ht : IsCent t) :
    round2 (sub + s + t) = round2 (round2 sub + s + t) := by
  have hst : IsCent (s + t) := hs.add ht
  have h1 : round2 (sub + s + t) = round2 sub + (s + t) := by
    rw [add_assoc, round2_add_of_cent _ _ hst]
  have h2 : round2 (round2 sub + s + t) = round2 (round2 sub) + (s + t) := by
    rw [add_assoc, round2_add_of_cent _ _ hst]
  rw [h1, h2, round2_of_cent (round2 sub) (round2_isCent sub)]

/-! Structural lemmas about `checkout` and `processItems`. -/

/-- Inversion of a successful `checkout`: the response fields in terms of the
resolution loop's raw subtotal. -/
theorem checkout_ok_inv (store : Option Store) (p : CheckoutRequest)
    (resp : CheckoutResponse) (tr : List StoreOp)
    (h : checkout store p = (.ok resp, tr)) :
    ∃ io sub ops, processItems store p.items = (.ok (io, sub), ops) ∧
      resp.items = io ∧ resp.subtotal = round2 sub ∧
      resp.shipping = round2 (if sub ≥ 75 then (0 : ℚ) else 699/100) ∧
      resp.tax = round2 (sub * (8/100)) ∧
      resp.total = round2 (sub + (if sub ≥ 75 then (0 : ℚ) else 699/100)
        + round2 (sub * (8/100))) := by
  unfold checkout at h
  split at h
  · simp at h
  · rcases hp : processItems store p.items with ⟨res, ops⟩
    rw [hp] at h
    rcases res with e | ⟨io, sub⟩
    · simp at h
    · simp only [Prod.mk.injEq, Except.ok.injEq] at h
      obtain ⟨hresp, -⟩ := h
      subst hresp
      exact ⟨io, sub, ops, rfl, rfl, rfl, rfl, rfl, rfl⟩

/-- Inversion of a failed `checkout` on a non-empty cart: the failure and
trace are those of the resolution loop (in particular, no order insert). -/
theorem checkout_err_inv (store : Option Store) (p : CheckoutRequest)
    (e : HTTPException) (tr : List StoreOp) (hne : p.items ≠ [])
    (h : checkout store p = (.error e, tr)) :
    processItems store p.items = (.error e, tr) := by
  unfold checkout at h
  split at h
  · rename_i hemp
    exact absurd (List.isEmpty_iff.mp hemp) hne
  · rcases hp : processItems store p.items with ⟨res, ops⟩
    rw [hp] at h
    rcases res with e' | ⟨io, sub⟩
    · simp only [Prod.mk.injEq, Except.error.injEq] at h
      rw [h.1, h.2]
    · simp at h

/-- The only error `resolveItem` can surface is the generic 400. -/
theorem resolveItem_err (st : Store) (pid : String) (e : HTTPException)
    (ops : List StoreOp) (h : resolveItem st pid = (.error e, ops)) :
    e = invalidProductIdExc := by
  unfold resolveItem at h
  rcases htr : tryResolve st pid with ⟨v | er, ops1⟩ <;> rw [htr] at h <;>
    simp_all

/-- Every store operation a `resolveItem` performs is a product lookup. -/
theorem resolveItem_ops (st : Store) (pid : String) (op : StoreOp)
    (h : op ∈ (resolveItem st pid).2) : ∃ p2, op = .findProduct p2 := by
  have hops : (resolveItem st pid).2 = (tryResolve st pid).2 := by
    unfold resolveItem
    rcases tryResolve st pid with ⟨v | er, ops1⟩ <;> rfl
  rw [hops] at h
  unfold tryResolve at h
  split at h
  · rcases hf : st.find pid with _ | pr <;> rw [hf] at h <;>
      simp only [List.mem_singleton] at h <;> exact ⟨pid, h⟩
  · simp at h

/-- One unfolding step of the resolution loop. -/
theorem processItems_cons (store : Option Store) (it : CartItem)
    (rest : List CartItem) :
    processItems store (it :: rest) =
      match resolveStep store it.product_id with
      | (.error e, ops) => (.error e, ops)
      | (.ok (price, title, image), ops) =>
        match processItems store rest with
        | (.error e, ops2) => (.error e, ops ++ ops2)
        | (.ok (ios, sub), ops2) =>
          (.ok ({ product_id := it.product_id, title := title, price := price,
                  quantity := it.quantity, image := image,
                  line_total := round2 (price * (it.quantity : ℚ)) } :: ios,
                price * (it.quantity : ℚ) + sub),
           ops ++ ops2) := rfl

/-- The only error `resolveStep` can surface is the generic 400. -/
theorem resolveStep_err (store : Option Store) (pid : String) (e : HTTPException)
    (ops : List StoreOp) (h : resolveStep store pid = (.error e, ops)) :
    e = invalidProductIdExc := by
  cases store with
  | none => simp [resolveStep, mockResolved] at h
  | some st => exact resolveItem_err st pid e ops h

/-- The accumulated subtotal of a successful resolution loop is the sum of
the raw (unrounded) line totals, and every emitted line total is the rounded
product `price * quantity`. -/
theorem processItems_ok_spec (store : Option Store) (items : List CartItem) :
    ∀ (io : List RespItem) (sub : ℚ) (ops : List StoreOp),
      processItems store items = (.ok (io, sub), ops) →
      sub = (io.map (fun it => it.price * (it.quantity : ℚ))).sum ∧
      ∀ it ∈ io, it.line_total = round2 (it.price * (it.quantity : ℚ)) := by
  induction items with
  | nil =>
    intro io sub ops h
    simp only [processItems, Prod.mk.injEq, Except.ok.injEq] at h
    obtain ⟨⟨h1, h2⟩, -⟩ := h
    subst h1
    subst h2
    simp
  | cons a rest ih =>
    intro io sub ops h
    rw [processItems_cons] at h
    split at h
    · simp at h
    · split at h
      · simp at h
      · rename_i heqr ios sub2 ops2 heq2
        simp only [Prod.mk.injEq, Except.ok.injEq] at h
        obtain ⟨⟨h1, h2⟩, -⟩ := h
        subst h1
        subst h2
        obtain ⟨ihsum, ihall⟩ := ih ios sub2 ops2 heq2
        constructor
        · simp [ihsum]
        · intro x hx
          rcases List.mem_cons.mp hx with hx1 | hx2
          · subst hx1; rfl
          · exact ihall x hx2

/-- A failing resolution loop always fails with the generic 400. -/
theorem processItems_err (store : Option Store) (items : List CartItem) :
    ∀ (e : HTTPException) (ops : List StoreOp),
      processItems store items = (.error e, ops) → e = invalidProductIdExc := by
  induction items with
  | nil => intro e ops h; simp [processItems] at h
  | cons a rest ih =>
    intro e ops h
    rw [processItems_cons] at h
    split at h
    · rename_i e1 ops1 heq
      simp only [Prod.mk.injEq, Except.error.injEq] at h
      rw [← h.1]
      exact resolveStep_err store a.product_id e1 ops1 heq
    · split at h
      · rename_i heqr e2 ops2 heq2
        simp only [Prod.mk.injEq, Except.error.injEq] at h
        rw [← h.1]
        exact ih e2 ops2 heq2
      · simp at h

/-- If any cart item fails to resolve, the whole loop fails. -/
theorem processItems_fails_of_mem (st : Store) (it : CartItem)
    (hfail : ∃ e1 ops1, resolveItem st it.product_id = (.error e1, ops1)) :
    ∀ items : List CartItem, it ∈ items →
      ∃ e ops, processItems (some st) items = (.error e, ops) := by
  intro items
  induction items with
  | nil => intro hmem; exact absurd hmem (List.not_mem_nil it)
  | cons a rest ih =>
    intro hmem
    rcases hr : resolveStep (some st) a.product_id with ⟨res1, ops1⟩
    rcases res1 with e1 | v1
    · exact ⟨e1, ops1, by rw [processItems_cons, hr]⟩
    · rcases List.mem_cons.mp hmem with heqa | hmem2
      · obtain ⟨e1, ops2, hf⟩ := hfail
        subst heqa
        rw [show resolveStep (some st) it.product_id
              = resolveItem st it.product_id from rfl, hf] at hr
        simp at hr
      · obtain ⟨e, ops2, hrec⟩ := ih hmem2
        rcases v1 with ⟨price, title, image⟩
        exact ⟨e, ops1 ++ ops2, by simp only [processItems_cons, hr, hrec]⟩

/-- Every store operation the resolution loop performs is a product lookup
(never an insert). -/
theorem processItems_ops (store : Option Store) (items : List CartItem) :
    ∀ op ∈ (processItems store items).2, ∃ pid, op = .findProduct pid := by
  induction items with
  | nil => intro op hop; simp [processItems] at hop
  | cons a rest ih =>
    intro op hop
    have hstep : ∀ op1 ∈ (resolveStep store a.product_id).2,
        ∃ pid, op1 = .findProduct pid := by
      cases store with
      | none => intro op1 h1; simp [resolveStep] at h1
      | some st => exact fun op1 h1 => resolveItem_ops st a.product_id op1 h1
    rcases hr : resolveStep store a.product_id with ⟨res1, ops1⟩
    rw [hr] at hstep
    rcases res1 with e1 | ⟨price, title, image⟩
    · simp only [processItems_cons, hr] at hop
      exact hstep op hop
    · rcases hrec : processItems store rest with ⟨res2, ops2⟩
      have ih2 : ∀ op1 ∈ ops2, ∃ pid, op1 = .findProduct pid := by
        intro op1 h1
        exact ih op1 (by rw [hrec]; exact h1)
      rcases res2 with e2 | ⟨ios, sub2⟩ <;>
        simp only [processItems_cons, hr, hrec, List.mem_append] at hop <;>
        rcases hop with h1 | h2
      · exact hstep op h1
      · exact ih2 op h2
      · exact hstep op h1
      · exact ih2 op h2

/-- The mocked resolution loop always succeeds, performs no store operation,
and prices every line with the single fallback item. -/
theorem processItems_none_ok (items : List CartItem) :
    ∃ io sub, processItems none items = (.ok (io, sub), []) ∧
      ∀ it ∈ io, it.price = 49 ∧ it.title = "Gift Item" := by
  induction items with
  | nil => exact ⟨[], 0, rfl, by simp⟩
  | cons a rest ih =>
    obtain ⟨io, sub, hrec, hall⟩ := ih
    refine ⟨{ product_id := a.product_id, title := "Gift Item", price := 49,
              quantity := a.quantity, image := some mockImageUrl,
              line_total := round2 (49 * (a.quantity : ℚ)) } :: io,
            49 * (a.quantity : ℚ) + sub, ?_, ?_⟩
    · have hstep : resolveStep none a.product_id = (.ok mockResolved, []) := rfl
      simp only [processItems_cons, hstep, mockResolved, hrec, List.nil_append]
    · intro x hx
      rcases List.mem_cons.mp hx with hx1 | hx2
      · subst hx1; exact ⟨rfl, rfl⟩
      · exact hall x hx2

/-- Replaying any trace `checkout` emits never changes the product
collection. -/
theorem applyOps_products (ops : List StoreOp) :
    ∀ st : Store, (applyOps st ops).products = st.products := by
  induction ops with
  | nil => intro st; rfl
  | cons op rest ih =>
    intro st
    have h1 : applyOps st (op :: rest) = applyOps (applyOp st op) rest := rfl
    rw [h1, ih]
    cases op <;> rfl

/-- A successful resolution loop determines the raw subtotal. -/
theorem rawSubtotal_of_ok (store : Option Store) (items : List CartItem)
    (io : List RespItem) (sub : ℚ) (ops : List StoreOp)
    (h : processItems store items = (.ok (io, sub), ops)) :
    rawSubtotal store items = some sub := by
  unfold rawSubtotal
  rw [h]

/-! Concrete evaluations. -/

/-- Evaluation of the two-unit mock cart. -/
theorem evalW1 : checkout none pW1 = (.ok respW1, []) := by
  have h1 : round2 (98 : ℚ) = 98 :=
    round2_eq _ 9800 _ (by norm_num) (by norm_num) (by norm_num)
  have h2 : round2 (0 : ℚ) = 0 :=
    round2_eq _ 0 _ (by norm_num) (by norm_num) (by norm_num)
  have h3 : round2 ((196 : ℚ)/25) = 196/25 :=
    round2_eq _ 784 _ (by norm_num) (by norm_num) (by norm_num)
  have h4 : round2 ((2646 : ℚ)/25) = 2646/25 :=
    round2_eq _ 10584 _ (by norm_num) (by norm_num) (by norm_num)
  simp [checkout, pW1, processItems, resolveStep, mockResolved, respW1]
  norm_num [h1, h2, h3, h4]

/-- The raw accumulated subtotal of the two-unit mock cart is 98.00. -/
theorem evalW1sub : rawSubtotal none pW1.items = some 98 := by
  simp [rawSubtotal, pW1, processItems, resolveStep, mockResolved]
  norm_num

/-! Claim theorems. -/

/-- C1: for every successful checkout, the response's total equals
round2(subtotal_rounded + shipping + tax), where subtotal_rounded is the
response's (already rounded) subtotal field. -/
theorem total_from_rounded_subtotal (store : Option Store) (p : CheckoutRequest)
    (resp : CheckoutResponse) (tr : List StoreOp)
    (h : checkout store p = (.ok resp, tr)) :
    resp.total = round2 (resp.subtotal + resp.shipping + resp.tax) := by
  obtain ⟨io, sub, ops, hp, hitems, hsubt, hship, htax, htot⟩ :=
    checkout_ok_inv store p resp tr h
  have hsc : IsCent (if sub ≥ 75 then (0 : ℚ) else 699/100) := by
    split
    · exact ⟨0, by norm_num⟩
    · exact ⟨699, by norm_num⟩
  have hships : resp.shipping = (if sub ≥ 75 then (0 : ℚ) else 699/100) := by
    rw [hship, round2_of_cent _ hsc]
  rw [htot, hsubt, hships, htax]
  exact total_rounding sub _ _ hsc (round2_isCent _)

/-- C1 witness: at the concrete two-unit mock cart, the returned total
105.84 equals round2(98.00 + 0 + 7.84). -/
theorem total_from_rounded_subtotal_witness :
    respW1.total = round2 (respW1.subtotal + respW1.shipping + respW1.tax) :=
  total_from_rounded_subtotal none pW1 respW1 [] evalW1

/-- C6: shipping is 0 iff the accumulated raw subtotal is at least 75.00,
and is exactly 6.99 otherwise. -/
theorem shipping_threshold (store : Option Store) (p : CheckoutRequest)
    (resp : CheckoutResponse) (tr : List StoreOp) (s : ℚ)
    (h : checkout store p = (.ok resp, tr))
    (hs : rawSubtotal store p.items = some s) :
    (resp.shipping = 0 ↔ 75 ≤ s) ∧ (¬ 75 ≤ s → resp.shipping = 699/100) := by
  obtain ⟨io, sub, ops, hp, -, -, hship, -, -⟩ := checkout_ok_inv store p resp tr h
  have hsub : rawSubtotal store p.items = some sub :=
    rawSubtotal_of_ok store p.items io sub ops hp
  rw [hs] at hsub
  obtain hss := Option.some.inj hsub
  subst hss
  constructor
  · rw [hship]
    split
    · rename_i hc
      rw [round2_of_cent 0 ⟨0, by norm_num⟩]
      simp [hc]
    · rename_i hc
      rw [round2_of_cent (699/100 : ℚ) ⟨699, by norm_num⟩]
      constructor
      · intro h699; norm_num at h699
      · intro h75; exact absurd h75 hc
  · intro hlt
    rw [hship, if_neg hlt, round2_of_cent (699/100 : ℚ) ⟨699, by norm_num⟩]

/-- C6 witness: for the mock cart with raw subtotal 98.00, shipping is 0
iff 75 ≤ 98. -/
theorem shipping_threshold_witness : respW1.shipping = 0 ↔ (75 : ℚ) ≤ 98 :=
  (shipping_threshold none pW1 respW1 [] 98 evalW1 evalW1sub).1

/-- C7: tax is round2(0.08 * raw_subtotal), computed from the accumulated
raw (unrounded) subtotal. -/
theorem tax_from_raw_subtotal (store : Option Store) (p : CheckoutRequest)
    (resp : CheckoutResponse) (tr : List StoreOp) (s : ℚ)
    (h : checkout store p = (.ok resp, tr))
    (hs : rawSubtotal store p.items = some s) :
    resp.tax = round2 ((8/100) * s) := by
  obtain ⟨io, sub, ops, hp, -, -, -, htax, -⟩ := checkout_ok_inv store p resp tr h
  have hsub : rawSubtotal store p.items = some sub :=
    rawSubtotal_of_ok store p.items io sub ops hp
  rw [hs] at hsub
  obtain hss := Option.some.inj hsub
  subst hss
  rw [htax, mul_comm]

/-- C7 witness: at the concrete mock cart with raw subtotal 98.00, the
returned tax 7.84 equals round2(0.08 * 98). -/
theorem tax_from_raw_subtotal_witness : respW1.tax = round2 ((8/100) * 98) :=
  tax_from_raw_subtotal none pW1 respW1 [] 98 evalW1 evalW1sub

/-- C2 (amended): every response line total is price * quantity rounded to
two decimals, but the accumulated subtotal is the sum of the raw
(unrounded) line totals, and the response's subtotal field is that raw sum
rounded to two decimals. -/
theorem line_totals_rounded_subtotal_raw (store : Option Store)
    (p : CheckoutRequest) (resp : CheckoutResponse) (tr : List StoreOp) (s : ℚ)
    (h : checkout store p = (.ok resp, tr))
    (hs : rawSubtotal store p.items = some s) :
    (∀ it ∈ resp.items, it.line_total = round2 (it.price * (it.quantity : ℚ))) ∧
    resp.subtotal = round2 s ∧
    s = (resp.items.map (fun it => it.price * (it.quantity : ℚ))).sum := by
  obtain ⟨io, sub, ops, hp, hitems, hsubt, -, -, -⟩ :=
    checkout_ok_inv store p resp tr h
  have hsub : rawSubtotal store p.items = some sub :=
    rawSubtotal_of_ok store p.items io sub ops hp
  rw [hs] at hsub
  obtain hss := Option.some.inj hsub
  subst hss
  obtain ⟨hsum, hall⟩ := processItems_ok_spec store p.items io s ops hp
  rw [hitems]
  exact ⟨hall, hsubt, hsum⟩

/-- C2 witness: at the concrete mock cart, the response subtotal is
round2(98) and the raw subtotal 98 is the sum of the raw line totals. -/
theorem line_totals_rounded_subtotal_raw_witness :
    respW1.subtotal = round2 98 ∧
    (98 : ℚ) = (respW1.items.map (fun it => it.price * (it.quantity : ℚ))).sum :=
  ⟨(line_totals_rounded_subtotal_raw none pW1 respW1 [] 98 evalW1 evalW1sub).2.1,
   (line_totals_rounded_subtotal_raw none pW1 respW1 [] 98 evalW1 evalW1sub).2.2⟩

/-- C5: checkout with an empty items list fails with the empty-cart client
error (400 "Cart is empty") and performs no store operation at all. -/
theorem empty_cart_rejected_before_store (store : Option Store)
    (p : CheckoutRequest) (h : p.items = []) :
    checkout store p = (.error emptyCartExc, []) := by
  simp [checkout, h]

/-- C5 witness: the concrete empty cart is rejected with no store
operation. -/
theorem empty_cart_rejected_before_store_witness :
    checkout none pEmpty = (.error emptyCartExc, []) :=
  empty_cart_rejected_before_store none pEmpty rfl

/-- C8: with no database configured, checkout on a non-empty cart does not
fail: it succeeds, performs no store operation (in particular no
persistence), and every line is priced with the single mocked fallback
item. -/
theorem mock_fallback_no_persistence (p : CheckoutRequest) (h : p.items ≠ []) :
    (checkout none p).2 = [] ∧
    (∃ resp, (checkout none p).1 = .ok resp) ∧
    ∀ resp, (checkout none p).1 = .ok resp →
      ∀ it ∈ resp.items, it.price = 49 ∧ it.title = "Gift Item" := by
  obtain ⟨io, sub, hrec, hall⟩ := processItems_none_ok p.items
  have hemp : p.items.isEmpty = false := by
    cases hi : p.items with
    | nil => exact absurd hi h
    | cons a l => rfl
  have hck : checkout none p =
      (.ok { items := io, subtotal := round2 sub,
             shipping := round2 (if sub ≥ 75 then (0 : ℚ) else 699/100),
             tax := round2 (sub * (8/100)),
             total := round2 (sub + (if sub ≥ 75 then (0 : ℚ) else 699/100)
               + round2 (sub * (8/100))),
             status := "processing",
             message := "Order placed successfully" }, []) := by
    unfold checkout
    simp [hemp, hrec]
  refine ⟨by rw [hck], ⟨_, by rw [hck]⟩, ?_⟩
  intro resp hresp
  rw [hck] at hresp
  simp only [Except.ok.injEq] at hresp
  rw [← hresp]
  exact hall

/-- C8 witness: the concrete mock cart succeeds with an empty store-op
trace. -/
theorem mock_fallback_no_persistence_witness :
    (checkout none pW1).2 = [] ∧ ∃ resp, (checkout none pW1).1 = .ok resp :=
  ⟨(mock_fallback_no_persistence pW1 (by decide)).1,
   (mock_fallback_no_persistence pW1 (by decide)).2.1⟩

/-- C9: checkout only reads products and inserts new orders: replaying its
store-operation trace leaves the product collection (hence every product's
stock_qty) unchanged. -/
theorem products_never_mutated (st : Store) (p : CheckoutRequest) :
    (applyOps st (checkout (some st) p).2).products = st.products ∧
    (applyOps st (checkout (some st) p).2).products.map
        (fun pr => pr.2.stock_qty)
      = st.products.map (fun pr => pr.2.stock_qty) := by
  refine ⟨applyOps_products _ st, ?_⟩
  rw [applyOps_products _ st]

/-- C10: with a configured store, every failure of the guarded resolution —
a malformed product id or a missing product — surfaces as the single client
error 400 "Invalid product id": the 404 naming the product id raised inside
the try block is itself caught by the generic handler. -/
theorem resolution_failures_collapse (st : Store) (pid : String) :
    ((∃ e, (tryResolve st pid).1 = .error e) →
      (resolveItem st pid).1 = .error invalidProductIdExc) ∧
    (objectIdValid pid = false →
      (tryResolve st pid).1 = .error .invalidObjectId) ∧
    (objectIdValid pid = true → st.find pid = none →
      (tryResolve st pid).1 = .error (.httpExc (productNotFoundExc pid))) := by
  refine ⟨?_, ?_, ?_⟩
  · rintro ⟨e, he⟩
    unfold resolveItem
    rcases htr : tryResolve st pid with ⟨e1 | v1, ops⟩
    · rfl
    · rw [htr] at he
      simp at he
  · intro hv
    simp [tryResolve, hv]
  · intro hv hf
    simp [tryResolve, hv, hf]

/-- The empty store resolves no id. -/
theorem stEmpty_find_none : stEmpty.find pidMissing = none := by
  simp [Store.find, stEmpty]

/-- C10 witness: at the empty store and a well-formed missing id, the inner
404 names the id, yet the surfaced error is the generic 400. -/
theorem resolution_failures_collapse_witness :
    (tryResolve stEmpty pidMissing).1
        = .error (.httpExc (productNotFoundExc pidMissing)) ∧
    (resolveItem stEmpty pidMissing).1 = .error invalidProductIdExc := by
  have h404 := (resolution_failures_collapse stEmpty pidMissing).2.2
    (by decide) stEmpty_find_none
  exact ⟨h404, (resolution_failures_collapse stEmpty pidMissing).1 ⟨_, h404⟩⟩

/-- Evaluation of checkout against the empty store and a well-formed but
unknown product id. -/
theorem evalMissing :
    checkout (some stEmpty) pMissing
      = (.error invalidProductIdExc, [.findProduct pidMissing]) := by
  have hv : objectIdValid pidMissing = true := by decide
  simp [checkout, pMissing, processItems, resolveStep, resolveItem, tryResolve,
        hv, stEmpty_find_none]

/-- C4 counterexample: a checkout referencing a nonexistent product id fails
with the generic 400 "Invalid product id", not with a ProductNotFoundError
naming the offending id (the internal 404 is swallowed). -/
theorem missing_product_error_not_named :
    (checkout (some stEmpty) pMissing).1 = .error invalidProductIdExc ∧
    (checkout (some stEmpty) pMissing).1
      ≠ .error (productNotFoundExc pidMissing) := by
  rw [evalMissing]
  refine ⟨rfl, ?_⟩
  intro hcontra
  simp [invalidProductIdExc, productNotFoundExc] at hcontra

/-- C4 (amended): a checkout referencing a well-formed product id for which
no product exists fails with a client error — the generic 400 "Invalid
product id", the internal 404 naming the id having been caught — and no
order document is persisted (the trace contains no insert). -/
theorem missing_product_client_error_no_order (st : Store) (p : CheckoutRequest)
    (it : CartItem) (hmem : it ∈ p.items)
    (hvalid : objectIdValid it.product_id = true)
    (hnone : st.find it.product_id = none) :
    (checkout (some st) p).1 = .error invalidProductIdExc ∧
    ∀ op ∈ (checkout (some st) p).2, ∀ d, op ≠ .insertOrder d := by
  have hres : resolveItem st it.product_id
      = (.error invalidProductIdExc, [.findProduct it.product_id]) := by
    simp [resolveItem, tryResolve, hvalid, hnone]
  obtain ⟨e, ops, hfail⟩ :=
    processItems_fails_of_mem st it ⟨_, _, hres⟩ p.items hmem
  have he : e = invalidProductIdExc :=
    processItems_err (some st) p.items e ops hfail
  subst he
  have hne : p.items ≠ [] := List.ne_nil_of_mem hmem
  have hemp : p.items.isEmpty = false := by
    cases hi : p.items with
    | nil => exact absurd hi hne
    | cons a l => rfl
  have hck : checkout (some st) p = (.error invalidProductIdExc, ops) := by
    unfold checkout
    simp [hemp, hfail]
  refine ⟨by rw [hck], ?_⟩
  intro op hop d
  rw [hck] at hop
  obtain ⟨pid2, hpid⟩ := processItems_ops (some st) p.items op
    (by rw [hfail]; exact hop)
  subst hpid
  intro hcontra
  simp at hcontra

/-- C4 witness: the amended claim at the empty store and the concrete
missing id. -/
theorem missing_product_client_error_no_order_witness :
    (checkout (some stEmpty) pMissing).1 = .error invalidProductIdExc :=
  (missing_product_client_error_no_order stEmpty pMissing ⟨pidMissing, 1⟩
    (by decide) (by decide) stEmpty_find_none).1

/-- C3 (code behaviour at the failing input): a cart item with quantity 0 is
not rejected by any validation — checkout succeeds, prices the line at 0.00
and returns a successful order response, although `schemas.py` declares
`OrderItem.quantity ≥ 1`. -/
theorem quantity_zero_reaches_pricing :
    checkout none pQty0 = (.ok respQty0, []) := by
  have h2 : round2 (0 : ℚ) = 0 :=
    round2_eq _ 0 _ (by norm_num) (by norm_num) (by norm_num)
  have h5 : round2 ((699 : ℚ)/100) = 699/100 :=
    round2_eq _ 699 _ (by norm_num) (by norm_num) (by norm_num)
  simp [checkout, pQty0, processItems, resolveStep, mockResolved, respQty0]
  norm_num [h2, h5]

/-- Evaluation of checkout for the two-line 37.496 cart. -/
theorem evalC2 : (checkout (some stC2) pC2).1 = .ok respC2 := by
  have hv : objectIdValid pidC2 = true := by decide
  have hc : canonOid pidC2 = pidC2 := by decide
  have hfind : stC2.find pidC2 = some prodC2 := by
    simp [Store.find, stC2, hc]
  have r1 : round2 ((4687 : ℚ)/125) = 75/2 :=
    round2_eq _ 3750 _ (by norm_num) (by norm_num) (by norm_num)
  have r2 : round2 ((9374 : ℚ)/125) = 7499/100 :=
    round2_eq _ 7499 _ (by norm_num) (by norm_num) (by norm_num)
  have r3 : round2 ((699 : ℚ)/100) = 699/100 :=
    round2_eq _ 699 _ (by norm_num) (by norm_num) (by norm_num)
  have r4 : round2 ((18748 : ℚ)/3125) = 6 :=
    round2_eq _ 600 _ (by norm_num) (by norm_num) (by norm_num)
  have r5 : round2 ((43991 : ℚ)/500) = 4399/50 :=
    round2_eq _ 8798 _ (by norm_num) (by norm_num) (by norm_num)
  simp [checkout, pC2, processItems, resolveStep, resolveItem, tryResolve,
        hv, hfind, prodC2, respC2]
  norm_num [r1, r2, r3, r4, r5]

/-- C2 counterexample: at the two-line 37.496 cart, each response line total
is rounded to 37.50 (their sum is 75.00), yet shipping is 6.99 (not 0) and
the response subtotal is 74.99 (not 75.00): the accumulated subtotal used for
shipping, tax and total is not built from the per-line rounded values. -/
theorem subtotal_not_from_rounded_lines :
    (checkout (some stC2) pC2).1 = .ok respC2 ∧
    (respC2.items.map RespItem.line_total).sum = 75 ∧
    respC2.shipping ≠ 0 ∧
    respC2.subtotal ≠ (respC2.items.map RespItem.line_total).sum := by
  refine ⟨evalC2, ?_, ?_, ?_⟩ <;> norm_num [respC2]

end Giftnama
